import Mathlib

/-!
Shallow embedding of the session-based authentication service
(backend/project: auth/routes.py, models/user.py, extensions.py).

The Flask/SQLAlchemy/flask-login infrastructure is modelled explicitly:
the user table is a list of records with a fresh-id counter, the session
store is a list of token bindings, and each HTTP handler becomes a pure
function from an application state, an optional session token and an
optional JSON body to an outcome paired with the successor state.
An unhandled Python exception (which the framework surfaces as a 500
response) is modelled by the `Outcome.fault` constructor.
-/

namespace AuthService

/-- Role enum from models/user.py (`class UserRole(enum.Enum)`). -/
inductive UserRole where
  | admin
  | user
deriving DecidableEq, Repr

/-- Serialization of a role (`role.value` in the source). -/
def UserRole.value : UserRole → String
  | UserRole.admin => "admin"
  | UserRole.user => "user"

/-- Model of Python `str.lower()`, mapping each character to lowercase. -/
def pyLower (s : String) : String :=
  String.mk (s.data.map Char.toLower)

/-- Python `UserRole(s)` looks a string up among the enum values; the source
raises `ValueError` when no value matches, which callers observe as `none`
here (the caller in `register` turns it into a fault). -/
def UserRole.fromValue (s : String) : Option UserRole :=
  if s == "admin" then some UserRole.admin
  else if s == "user" then some UserRole.user
  else none

/-- Deterministic model of werkzeug `generate_password_hash`: the claims under
verification depend only on whether verification succeeds, never on salt
randomness, so the hash is modelled as an injective tagged encoding. -/
def generate_password_hash (pw : String) : String :=
  "pbkdf2-sha256-salted:" ++ pw

/-- Model of werkzeug `check_password_hash`: true exactly when the stored hash
was derived from this plaintext. -/
def check_password_hash (h : String) (pw : String) : Bool :=
  h == generate_password_hash pw

/-- User record from models/user.py: id, username, email, password_hash, role. -/
structure User where
  id : Nat
  username : String
  email : String
  password_hash : String
  role : UserRole
deriving DecidableEq, Repr

/-- The user table (`db.Model` backing store): the rows plus the
autoincrement counter for the integer primary key. -/
structure Store where
  users : List User
  nextId : Nat
deriving DecidableEq, Repr

/-- Model of `User.query.filter_by(username=u).first()`: first row whose
username column equals the argument exactly (SQL equality on the column). -/
def findByUsername (s : Store) (u : String) : Option User :=
  s.users.find? (fun x => x.username == u)

/-- Model of `User.query.filter_by(email=e).first()`. -/
def findByEmail (s : Store) (e : String) : Option User :=
  s.users.find? (fun x => x.email == e)

/-- Model of `User.query.get(id)` (the flask-login user loader). -/
def findById (s : Store) (i : Nat) : Option User :=
  s.users.find? (fun x => x.id == i)

/-- A flask-login session: opaque token bound to a user id, with the
remember flag passed to `login_user`. -/
structure Session where
  token : Nat
  user_id : Nat
  remember : Bool
deriving DecidableEq, Repr

/-- The session store: current bindings plus a fresh-token counter. -/
structure SessionStore where
  sessions : List Session
  nextToken : Nat
deriving DecidableEq, Repr

/-- Resolve a session token to its binding, if any. -/
def resolveSession (ss : SessionStore) (t : Nat) : Option Session :=
  ss.sessions.find? (fun s => s.token == t)

/-- Model of `login_user(user, remember=r)`: issue a fresh token bound to the
user id, recording the remember flag. -/
def createSession (ss : SessionStore) (uid : Nat) (remember : Bool) :
    Nat × SessionStore :=
  (ss.nextToken,
    ⟨ss.sessions ++ [⟨ss.nextToken, uid, remember⟩], ss.nextToken + 1⟩)

/-- Model of `logout_user()`: drop the binding of the current token. -/
def destroySession (ss : SessionStore) (t : Nat) : SessionStore :=
  ⟨ss.sessions.filter (fun s => s.token != t), ss.nextToken⟩

/-- Whole application state: user table plus session store. -/
structure AppState where
  store : Store
  sessions : SessionStore
deriving DecidableEq, Repr

/-- Model of flask-login `current_user` resolution: the request carries an
optional session token; the token resolves to a binding, whose user id is
loaded through `load_user` (`User.query.get`). `none` means the request is
unauthenticated, which `@login_required` turns into the 401 handler. -/
def currentUser (st : AppState) (tok : Option Nat) : Option User :=
  match tok with
  | none => none
  | some t =>
    match resolveSession st.sessions t with
    | none => none
    | some s => findById st.store s.user_id

/-- JSON body of a request (`request.get_json()`): each key is optional,
and a present key may carry any string, including the empty one. The
`remember` field models a caller-supplied remember flag; the source never
reads it. -/
structure RequestData where
  username : Option String
  email : Option String
  password : Option String
  role : Option String
  remember : Option Bool
deriving DecidableEq, Repr

/-- User payload echoed by login and status responses. -/
structure UserInfo where
  id : Nat
  username : String
  role : String
deriving DecidableEq, Repr

/-- An HTTP response: status code, message, and the optional payload
fields the handlers emit. -/
structure Response where
  status : Nat
  message : String
  user : Option UserInfo
  isAuthenticated : Option Bool
deriving DecidableEq, Repr

/-- Outcome of a handler: a structured response, or an unhandled Python
exception that the framework surfaces as a 500. -/
inductive Outcome where
  | resp (r : Response)
  | fault (msg : String)
deriving DecidableEq, Repr

/-- The 401 body produced by the `@login_manager.unauthorized_handler`
in extensions.py. -/
def authRequiredResp : Response :=
  ⟨401, "Authentication required.", none, none⟩

/-- The 403 body from `register` for a non-admin caller. -/
def permissionDeniedResp : Response :=
  ⟨403, "Permission denied", none, none⟩

/-- The 400 body from `register` when the JSON body or one of the
username/password/email keys is absent. -/
def missingRegisterFieldsResp : Response :=
  ⟨400, "Missing username, email, or password", none, none⟩

/-- The 409 body when the requested username already exists. -/
def duplicateUsernameResp : Response :=
  ⟨409, "Username already exists", none, none⟩

/-- The 409 body when the requested email already exists. -/
def duplicateEmailResp : Response :=
  ⟨409, "Email already exists", none, none⟩

/-- The 201 body on successful registration. -/
def registeredResp : Response :=
  ⟨201, "User registered successfully", none, none⟩

/-- The 400 body from `login` when body/username/password is absent. -/
def missingLoginFieldsResp : Response :=
  ⟨400, "Missing username or password", none, none⟩

/-- The 401 body from `login` for an unknown username or a wrong password:
one shared value, as in the source, so both failures are literally the
same response. -/
def invalidCredentialsResp : Response :=
  ⟨401, "Invalid username or password", none, none⟩

/-- The 200 body from `logout`. -/
def logoutResp : Response :=
  ⟨200, "Logout successful", none, none⟩

/-- POST /api/auth/register (auth/routes.py). `@login_required` first; then
the admin check; then presence of the three keys; then the two duplicate
lookups, username before email; then `UserRole(data.get(role, user).lower())`
which faults on an unrecognized string; finally the insert. -/
def register (st : AppState) (tok : Option Nat) (data : Option RequestData) :
    Outcome × AppState :=
  match currentUser st tok with
  | none => (Outcome.resp authRequiredResp, st)
  | some cu =>
    if cu.role != UserRole.admin then (Outcome.resp permissionDeniedResp, st)
    else
      match data with
      | none => (Outcome.resp missingRegisterFieldsResp, st)
      | some d =>
        match d.username, d.password, d.email with
        | some uname, some pw, some email =>
          if (findByUsername st.store uname).isSome then
            (Outcome.resp duplicateUsernameResp, st)
          else if (findByEmail st.store email).isSome then
            (Outcome.resp duplicateEmailResp, st)
          else
            match UserRole.fromValue (pyLower (d.role.getD "user")) with
            | none => (Outcome.fault "ValueError: not a valid UserRole", st)
            | some r =>
              let u : User :=
                ⟨st.store.nextId, uname, email, generate_password_hash pw, r⟩
              (Outcome.resp registeredResp,
                ⟨⟨st.store.users ++ [u], st.store.nextId + 1⟩, st.sessions⟩)
        | _, _, _ => (Outcome.resp missingRegisterFieldsResp, st)

/-- POST /api/auth/login (auth/routes.py). Presence of username and password;
lookup by username; `user is None or not user.check_password(..)` collapses
to the single invalid-credentials response; on success `login_user(user,
remember=True)` — the remember flag is the literal True from the source,
not anything the caller sent. -/
def login (st : AppState) (data : Option RequestData) : Outcome × AppState :=
  match data with
  | none => (Outcome.resp missingLoginFieldsResp, st)
  | some d =>
    match d.username, d.password with
    | some uname, some pw =>
      match findByUsername st.store uname with
      | none => (Outcome.resp invalidCredentialsResp, st)
      | some user =>
        if !(check_password_hash user.password_hash pw) then
          (Outcome.resp invalidCredentialsResp, st)
        else
          let ts := createSession st.sessions user.id true
          (Outcome.resp
            ⟨200, "Login successful",
              some ⟨user.id, user.username, user.role.value⟩, none⟩,
            ⟨st.store, ts.2⟩)
    | _, _ => (Outcome.resp missingLoginFieldsResp, st)

/-- POST /api/auth/logout (auth/routes.py): `@login_required`, then
`logout_user()` destroys the current session binding. -/
def logout (st : AppState) (tok : Option Nat) : Outcome × AppState :=
  match tok with
  | none => (Outcome.resp authRequiredResp, st)
  | some t =>
    match currentUser st (some t) with
    | none => (Outcome.resp authRequiredResp, st)
    | some _ =>
      (Outcome.resp logoutResp, ⟨st.store, destroySession st.sessions t⟩)

/-- GET /api/auth/status (auth/routes.py): `@login_required`, then echo
the current user; read-only on the state. -/
def status (st : AppState) (tok : Option Nat) : Outcome × AppState :=
  match currentUser st tok with
  | none => (Outcome.resp authRequiredResp, st)
  | some cu =>
    (Outcome.resp
      ⟨200, "", some ⟨cu.id, cu.username, cu.role.value⟩, some true⟩, st)

/-!
Interleaving model for the concurrency claim. A register call that has
already passed the admin and presence checks performs three store
operations: the username lookup, the email lookup, and the insert-commit.
The insert enforces the UNIQUE constraints declared on the username and
email columns in models/user.py: committing a row whose username or email
already exists raises IntegrityError (an unhandled fault), which is the
store-level backstop behind the application-level read-then-check.
-/

/-- Model of `db.session.add(user); db.session.commit()` under the UNIQUE
constraints on the username and email columns. -/
def insertCommit (s : Store) (u : User) : Outcome × Store :=
  if s.users.any (fun x => x.username == u.username || x.email == u.email)
  then (Outcome.fault "IntegrityError: UNIQUE constraint failed", s)
  else (Outcome.resp registeredResp, ⟨s.users ++ [u], s.nextId + 1⟩)

/-- One in-flight register call (already authenticated as admin, fields
present and valid): its input, its program counter over the three store
operations, and its outcome once finished. -/
structure RegProc where
  uname : String
  email : String
  pw : String
  role : UserRole
  pc : Nat
  out : Option Outcome
deriving DecidableEq, Repr

/-- Run one store operation of an in-flight register call: pc 0 is the
username duplicate lookup, pc 1 the email duplicate lookup, pc 2 the
insert-commit; pc 3 means finished (no-op). -/
def regStep (s : Store) (p : RegProc) : Store × RegProc :=
  match p.pc with
  | 0 =>
    if (findByUsername s p.uname).isSome then
      (s, ⟨p.uname, p.email, p.pw, p.role, 3,
        some (Outcome.resp duplicateUsernameResp)⟩)
    else (s, ⟨p.uname, p.email, p.pw, p.role, 1, none⟩)
  | 1 =>
    if (findByEmail s p.email).isSome then
      (s, ⟨p.uname, p.email, p.pw, p.role, 3,
        some (Outcome.resp duplicateEmailResp)⟩)
    else (s, ⟨p.uname, p.email, p.pw, p.role, 2, none⟩)
  | 2 =>
    let r := insertCommit s
      ⟨s.nextId, p.uname, p.email, generate_password_hash p.pw, p.role⟩
    (r.2, ⟨p.uname, p.email, p.pw, p.role, 3, some r.1⟩)
  | _ => (s, p)

/-- Run two in-flight register calls under a schedule: `true` steps the
first process, `false` the second. -/
def runSched : List Bool → Store → RegProc → RegProc →
    Store × RegProc × RegProc
  | [], s, a, b => (s, a, b)
  | true :: rest, s, a, b =>
    let sa := regStep s a
    runSched rest sa.1 sa.2 b
  | false :: rest, s, a, b =>
    let sb := regStep s b
    runSched rest sb.1 a sb.2

/-- All boolean lists of a given length. -/
def boolLists : Nat → List (List Bool)
  | 0 => [[]]
  | n + 1 =>
    ((boolLists n).map (fun l => true :: l)) ++
      ((boolLists n).map (fun l => false :: l))

/-- All interleavings of the two processes: each takes exactly its three
store operations. -/
def validScheds : List (List Bool) :=
  (boolLists 6).filter (fun l => l.count true == 3)

/-- A concrete admin account used by the closed witness states. -/
def adminUser : User :=
  ⟨1, "root", "root@example.com", generate_password_hash "rootpw",
    UserRole.admin⟩

/-- Concrete state: one admin user, logged in under token 10. -/
def st0 : AppState :=
  ⟨⟨[adminUser], 2⟩, ⟨[⟨10, 1, true⟩], 11⟩⟩

/-- Concrete initial user table for the interleaving scenario. -/
def store8 : Store := ⟨[adminUser], 2⟩

/-- First concurrent register call: username bob. -/
def procA : RegProc := ⟨"bob", "a@x.com", "pw", UserRole.user, 0, none⟩

/-- Second concurrent register call: same username, different email. -/
def procB : RegProc := ⟨"bob", "b@x.com", "pw", UserRole.user, 0, none⟩

/-- The racy schedule: both lookups of both calls run before either
insert. -/
def racySched : List Bool := [true, true, false, false, true, false]

/-- A concrete non-admin account. -/
def aliceUser : User :=
  ⟨2, "alice", "alice@example.com", generate_password_hash "alicepw",
    UserRole.user⟩

/-- Concrete state: admin (token 10) and non-admin alice (token 20) both
logged in. -/
def st1 : AppState :=
  ⟨⟨[adminUser, aliceUser], 3⟩, ⟨[⟨10, 1, true⟩, ⟨20, 2, true⟩], 21⟩⟩

example : currentUser st0 (some 10) = some adminUser := by decide

example :
    (runSched racySched store8 procA procB).2.1.out =
      some (Outcome.resp registeredResp) := by rfl

example :
    (runSched racySched store8 procA procB).2.2.out =
      some (Outcome.fault "IntegrityError: UNIQUE constraint failed") := by rfl

example :
    validScheds.all (fun sched =>
      ((runSched sched store8 procA procB).1.users.filter
          (fun u => u.username == "bob")).length == 1) = true := by decide

example :
    (register st0 (some 10)
      (some ⟨some "alice", some "a@x.com", some "pw123", none, none⟩)).1 =
    Outcome.resp registeredResp := by rfl

/-- C3: every register call by a caller with no valid session fails with
the 401 authentication-required response before any role check, and every
call by an authenticated non-admin fails with the 403 permission-denied
response; authentication is checked strictly before permission, so the 401
branch fires for unauthenticated callers regardless of body or role. -/
theorem register_authentication_precedes_permission
    (st : AppState) (tok : Option Nat) (data : Option RequestData) :
    (currentUser st tok = none →
      register st tok data = (Outcome.resp authRequiredResp, st)) ∧
    (∀ cu, currentUser st tok = some cu → cu.role ≠ UserRole.admin →
      register st tok data = (Outcome.resp permissionDeniedResp, st)) ∧
    authRequiredResp.status = 401 ∧ permissionDeniedResp.status = 403 := by
  refine ⟨?_, ?_, rfl, rfl⟩
  · intro h
    simp [register, h]
  · intro cu h hr
    have hb : (cu.role != UserRole.admin) = true := by
      simp [bne_iff_ne, hr]
    simp [register, h, hb]

/-- Closed instance of C3: in st1, an unauthenticated register call gets
401 and alice (role user, token 20) gets 403. -/
theorem register_authentication_precedes_permission_witness :
    register st1 none none = (Outcome.resp authRequiredResp, st1) ∧
    register st1 (some 20) none = (Outcome.resp permissionDeniedResp, st1) :=
  ⟨(register_authentication_precedes_permission st1 none none).1 rfl,
    (register_authentication_precedes_permission st1 (some 20) none).2.1
      aliceUser rfl (by decide)⟩

/-- C4: a login with an unknown username and a login with a known username
but wrong password both produce the very same invalid-credentials
response (status 401, same message), leaving the state unchanged, so the
response does not reveal whether the username exists. -/
theorem login_unknown_user_wrong_password_same_error
    (st : AppState) (u1 p1 u2 p2 : String) (user : User)
    (h1 : findByUsername st.store u1 = none)
    (h2 : findByUsername st.store u2 = some user)
    (h3 : check_password_hash user.password_hash p2 = false) :
    login st (some ⟨some u1, none, some p1, none, none⟩) =
      (Outcome.resp invalidCredentialsResp, st) ∧
    login st (some ⟨some u2, none, some p2, none, none⟩) =
      (Outcome.resp invalidCredentialsResp, st) ∧
    invalidCredentialsResp.status = 401 := by
  refine ⟨?_, ?_, rfl⟩
  · simp [login, h1]
  · simp [login, h2, h3]

/-- Closed instance of C4: in st0, login as unknown ghost and login as
root with a wrong password yield the identical 401 response. -/
theorem login_unknown_user_wrong_password_same_error_witness :
    login st0 (some ⟨some "ghost", none, some "x", none, none⟩) =
      (Outcome.resp invalidCredentialsResp, st0) ∧
    login st0 (some ⟨some "root", none, some "wrong", none, none⟩) =
      (Outcome.resp invalidCredentialsResp, st0) :=
  ⟨(login_unknown_user_wrong_password_same_error st0 "ghost" "x" "root"
      "wrong" adminUser rfl rfl rfl).1,
    (login_unknown_user_wrong_password_same_error st0 "ghost" "x" "root"
      "wrong" adminUser rfl rfl rfl).2.1⟩

/-- C6: for an admin caller with all fields present, the username
duplicate lookup runs first: an existing username yields the 409
duplicate-username response whatever the email is, and an existing email
with a fresh username yields the 409 duplicate-email response; in both
failure cases the returned state is the input state, so no record is
created. -/
theorem register_duplicate_username_checked_first
    (st : AppState) (tok : Option Nat) (cu : User)
    (uname pw email : String) (roleF : Option String) (remF : Option Bool)
    (hcu : currentUser st tok = some cu)
    (hadmin : cu.role = UserRole.admin) :
    ((findByUsername st.store uname).isSome = true →
      register st tok (some ⟨some uname, some email, some pw, roleF, remF⟩) =
        (Outcome.resp duplicateUsernameResp, st)) ∧
    (findByUsername st.store uname = none →
      (findByEmail st.store email).isSome = true →
      register st tok (some ⟨some uname, some email, some pw, roleF, remF⟩) =
        (Outcome.resp duplicateEmailResp, st)) ∧
    duplicateUsernameResp.status = 409 ∧ duplicateEmailResp.status = 409 := by
  refine ⟨?_, ?_, rfl, rfl⟩
  · intro h
    simp [register, hcu, hadmin, h]
  · intro h1 h2
    simp [register, hcu, hadmin, h1, h2]

/-- Closed instance of C6: in st1 the admin registering username alice
(email also taken) gets duplicate-username, and a fresh username with
alice's email gets duplicate-email; st1 is unchanged both times. -/
theorem register_duplicate_username_checked_first_witness :
    register st1 (some 10)
      (some ⟨some "alice", some "alice@example.com", some "pw", none, none⟩) =
      (Outcome.resp duplicateUsernameResp, st1) ∧
    register st1 (some 10)
      (some ⟨some "bob", some "alice@example.com", some "pw", none, none⟩) =
      (Outcome.resp duplicateEmailResp, st1) :=
  ⟨(register_duplicate_username_checked_first st1 (some 10) adminUser
      "alice" "pw" "alice@example.com" none none rfl rfl).1 rfl,
    (register_duplicate_username_checked_first st1 (some 10) adminUser
      "bob" "pw" "alice@example.com" none none rfl rfl).2.1 rfl rfl⟩

/-- C2 counterexample: a login request whose body carries remember false
still creates a session with remember true — the source passes the
literal True to `login_user`, ignoring the caller. -/
theorem login_caller_remember_flag_ignored :
    (⟨some "root", none, some "rootpw", none, some false⟩ :
        RequestData).remember = some false ∧
    resolveSession
      (login st0
        (some ⟨some "root", none, some "rootpw", none, some false⟩)).2.sessions
      11 = some ⟨11, 1, true⟩ :=
  ⟨rfl, rfl⟩

/-- C2 amended: every login either leaves the state unchanged (failure) or
creates exactly one new session whose remember flag is the constant true,
whatever remember value the caller supplied. -/
theorem login_session_remember_always_true
    (st : AppState) (data : Option RequestData) :
    (login st data).2 = st ∨
    ∃ uid, (login st data).2 =
      ⟨st.store,
        ⟨st.sessions.sessions ++ [⟨st.sessions.nextToken, uid, true⟩],
          st.sessions.nextToken + 1⟩⟩ := by
  unfold login
  split
  · exact Or.inl rfl
  · split
    · split
      · exact Or.inl rfl
      · split
        · exact Or.inl rfl
        · exact Or.inr ⟨_, rfl⟩
    · exact Or.inl rfl

/-- C5 counterexample: an admin register call with an empty-string
username (email and password keys present) is not rejected with 400; it
passes the presence check and succeeds with 201, creating the record. -/
theorem register_accepts_empty_username :
    (register st0 (some 10)
      (some ⟨some "", some "e@x.com", some "p", none, none⟩)).1 =
      Outcome.resp registeredResp :=
  rfl

/-- C5 amended: for an admin caller, register answers the fixed 400
missing-fields response exactly when the body is absent or one of the
username, password, email keys is absent; whenever all three keys are
present — with any values, including empty strings — the missing-fields
response is impossible. -/
theorem register_missing_check_is_presence_only
    (st : AppState) (tok : Option Nat) (cu : User)
    (hcu : currentUser st tok = some cu)
    (hadmin : cu.role = UserRole.admin) :
    (register st tok none = (Outcome.resp missingRegisterFieldsResp, st)) ∧
    (∀ d : RequestData,
      d.username = none ∨ d.password = none ∨ d.email = none →
      register st tok (some d) =
        (Outcome.resp missingRegisterFieldsResp, st)) ∧
    (∀ d : RequestData, d.username.isSome → d.password.isSome →
      d.email.isSome →
      (register st tok (some d)).1 ≠ Outcome.resp missingRegisterFieldsResp) ∧
    missingRegisterFieldsResp =
      ⟨400, "Missing username, email, or password", none, none⟩ := by
  refine ⟨?_, ?_, ?_, rfl⟩
  · simp [register, hcu, hadmin]
  · rintro ⟨du, de, dp, dr, drem⟩ h
    cases du <;> cases de <;> cases dp <;>
      simp_all [register, hcu, hadmin]
  · rintro ⟨du, de, dp, dr, drem⟩ hu hp he
    obtain ⟨uname, rfl⟩ := Option.isSome_iff_exists.mp hu
    obtain ⟨pw, rfl⟩ := Option.isSome_iff_exists.mp hp
    obtain ⟨email, rfl⟩ := Option.isSome_iff_exists.mp he
    simp only [register, hcu, hadmin, bne_self_eq_false, Bool.false_eq_true,
      if_false]
    split
    · simp [duplicateUsernameResp, missingRegisterFieldsResp]
    · split
      · simp [duplicateEmailResp, missingRegisterFieldsResp]
      · split
        · simp
        · simp [registeredResp, missingRegisterFieldsResp]

/-- Closed instance of the amended C5: in st0 the admin gets the 400
missing-fields response for an absent body and for a body without a
password key, and a body with all keys present but empty values does not
get it. -/
theorem register_missing_check_is_presence_only_witness :
    register st0 (some 10) none =
      (Outcome.resp missingRegisterFieldsResp, st0) ∧
    register st0 (some 10) (some ⟨some "u", some "e", none, none, none⟩) =
      (Outcome.resp missingRegisterFieldsResp, st0) ∧
    (register st0 (some 10)
      (some ⟨some "", some "", some "", none, none⟩)).1 ≠
      Outcome.resp missingRegisterFieldsResp :=
  ⟨(register_missing_check_is_presence_only st0 (some 10) adminUser
      rfl rfl).1,
    (register_missing_check_is_presence_only st0 (some 10) adminUser
      rfl rfl).2.1 ⟨some "u", some "e", none, none, none⟩ (Or.inr (Or.inl rfl)),
    (register_missing_check_is_presence_only st0 (some 10) adminUser
      rfl rfl).2.2.1 ⟨some "", some "", some "", none, none⟩ rfl rfl rfl⟩

/-- Helper: shape of a successful register call — all checks pass, the
role string parses to r, and exactly the one new row is appended while
the sessions are untouched. -/
theorem register_success_eq (st : AppState) (tok : Option Nat) (cu : User)
    (uname pw email : String) (roleF : Option String) (remF : Option Bool)
    (r : UserRole)
    (hcu : currentUser st tok = some cu)
    (hadmin : cu.role = UserRole.admin)
    (hnu : findByUsername st.store uname = none)
    (hne : findByEmail st.store email = none)
    (hr : UserRole.fromValue (pyLower (roleF.getD "user")) = some r) :
    register st tok (some ⟨some uname, some email, some pw, roleF, remF⟩) =
      (Outcome.resp registeredResp,
        ⟨⟨st.store.users ++
            [⟨st.store.nextId, uname, email, generate_password_hash pw, r⟩],
          st.store.nextId + 1⟩, st.sessions⟩) := by
  simp [register, hcu, hadmin, hnu, hne, hr]

/-- Helper: when all checks pass but the role string does not parse, the
enum conversion raises and register ends in the unhandled fault. -/
theorem register_role_fault_eq (st : AppState) (tok : Option Nat) (cu : User)
    (uname pw email : String) (roleF : Option String) (remF : Option Bool)
    (hcu : currentUser st tok = some cu)
    (hadmin : cu.role = UserRole.admin)
    (hnu : findByUsername st.store uname = none)
    (hne : findByEmail st.store email = none)
    (hr : UserRole.fromValue (pyLower (roleF.getD "user")) = none) :
    register st tok (some ⟨some uname, some email, some pw, roleF, remF⟩) =
      (Outcome.fault "ValueError: not a valid UserRole", st) := by
  simp [register, hcu, hadmin, hnu, hne, hr]

/-- C1 counterexample: an admin register call with role superuser does not
fail with a structured InvalidRole error; the enum conversion raises an
unhandled ValueError (surfaced by the framework as a 500). -/
theorem register_invalid_role_unhandled_fault :
    register st0 (some 10)
      (some ⟨some "alice", some "a@x.com", some "pw", some "superuser",
        none⟩) =
      (Outcome.fault "ValueError: not a valid UserRole", st0) :=
  rfl

/-- C1 amended: when the requested role is absent it defaults to user;
a present value is lowercased before the enum lookup, so ADMIN succeeds
and stores role admin; but a string whose lowercase form is neither
admin nor user makes the enum conversion raise an unhandled ValueError
(a fault, not a structured InvalidRole error). -/
theorem register_role_default_and_case_insensitive
    (st : AppState) (tok : Option Nat) (cu : User) (uname pw email : String)
    (hcu : currentUser st tok = some cu)
    (hadmin : cu.role = UserRole.admin)
    (hnu : findByUsername st.store uname = none)
    (hne : findByEmail st.store email = none) :
    (register st tok (some ⟨some uname, some email, some pw, none, none⟩) =
      (Outcome.resp registeredResp,
        ⟨⟨st.store.users ++ [⟨st.store.nextId, uname, email,
            generate_password_hash pw, UserRole.user⟩],
          st.store.nextId + 1⟩, st.sessions⟩)) ∧
    (∀ rs, pyLower rs = "admin" →
      register st tok
        (some ⟨some uname, some email, some pw, some rs, none⟩) =
      (Outcome.resp registeredResp,
        ⟨⟨st.store.users ++ [⟨st.store.nextId, uname, email,
            generate_password_hash pw, UserRole.admin⟩],
          st.store.nextId + 1⟩, st.sessions⟩)) ∧
    (∀ rs, pyLower rs ≠ "admin" → pyLower rs ≠ "user" →
      register st tok
        (some ⟨some uname, some email, some pw, some rs, none⟩) =
      (Outcome.fault "ValueError: not a valid UserRole", st)) := by
  refine ⟨?_, ?_, ?_⟩
  · exact register_success_eq st tok cu uname pw email none none
      UserRole.user hcu hadmin hnu hne rfl
  · intro rs h
    refine register_success_eq st tok cu uname pw email (some rs) none
      UserRole.admin hcu hadmin hnu hne ?_
    simp only [Option.getD_some]
    rw [h]
    decide
  · intro rs h1 h2
    refine register_role_fault_eq st tok cu uname pw email (some rs) none
      hcu hadmin hnu hne ?_
    simp only [Option.getD_some]
    simp [UserRole.fromValue, h1, h2]

/-- Closed instance of the amended C1: in st0, registering alice with no
role stores role user, with role ADMIN stores role admin, and with role
Root ends in the unhandled ValueError fault. -/
theorem register_role_default_and_case_insensitive_witness :
    register st0 (some 10)
      (some ⟨some "alice", some "a@x.com", some "pw", none, none⟩) =
      (Outcome.resp registeredResp,
        ⟨⟨st0.store.users ++ [⟨st0.store.nextId, "alice", "a@x.com",
            generate_password_hash "pw", UserRole.user⟩],
          st0.store.nextId + 1⟩, st0.sessions⟩) ∧
    register st0 (some 10)
      (some ⟨some "alice", some "a@x.com", some "pw", some "ADMIN", none⟩) =
      (Outcome.resp registeredResp,
        ⟨⟨st0.store.users ++ [⟨st0.store.nextId, "alice", "a@x.com",
            generate_password_hash "pw", UserRole.admin⟩],
          st0.store.nextId + 1⟩, st0.sessions⟩) ∧
    register st0 (some 10)
      (some ⟨some "alice", some "a@x.com", some "pw", some "Root", none⟩) =
      (Outcome.fault "ValueError: not a valid UserRole", st0) :=
  ⟨(register_role_default_and_case_insensitive st0 (some 10) adminUser
      "alice" "pw" "a@x.com" rfl rfl rfl rfl).1,
    (register_role_default_and_case_insensitive st0 (some 10) adminUser
      "alice" "pw" "a@x.com" rfl rfl rfl rfl).2.1 "ADMIN" rfl,
    (register_role_default_and_case_insensitive st0 (some 10) adminUser
      "alice" "pw" "a@x.com" rfl rfl rfl rfl).2.2 "Root" (by decide)
      (by decide)⟩

/-- Helper: after filtering out every session with a given token, a lookup
for that token finds nothing. -/
theorem find_token_filter_none (l : List Session) (t : Nat) :
    (l.filter (fun s => s.token != t)).find? (fun s => s.token == t) =
      none := by
  induction l with
  | nil => rfl
  | cons a l ih =>
    by_cases h : a.token = t
    · simp [List.filter_cons, h, ih]
    · simp [List.filter_cons, h, List.find?_cons, ih]

/-- Helper: destroying a token makes it unresolvable. -/
theorem resolveSession_destroySession (ss : SessionStore) (t : Nat) :
    resolveSession (destroySession ss t) t = none :=
  find_token_filter_none ss.sessions t

/-- C7: after a successful logout of a token, that token resolves to
nothing, and every subsequent status, register, or logout call carrying it
answers the 401 authentication-required response and leaves the state
unchanged — so a destroyed session is never resolved again. -/
theorem logout_invalidates_token_permanently
    (st st' : AppState) (t : Nat)
    (h : logout st (some t) = (Outcome.resp logoutResp, st')) :
    resolveSession st'.sessions t = none ∧
    status st' (some t) = (Outcome.resp authRequiredResp, st') ∧
    (∀ data, register st' (some t) data =
      (Outcome.resp authRequiredResp, st')) ∧
    logout st' (some t) = (Outcome.resp authRequiredResp, st') := by
  have hst : st' = ⟨st.store, destroySession st.sessions t⟩ := by
    rcases hc : currentUser st (some t) with _ | cu
    · simp [logout, hc, authRequiredResp, logoutResp] at h
    · simp [logout, hc] at h
      exact h.symm
  subst hst
  have hres : resolveSession (destroySession st.sessions t) t = none :=
    resolveSession_destroySession st.sessions t
  refine ⟨hres, ?_, ?_, ?_⟩
  · simp [status, currentUser, hres]
  · intro data
    simp [register, currentUser, hres]
  · simp [logout, currentUser, hres]

/-- Closed instance of C7: in st0, after logging token 10 out, the token
no longer resolves, and status and register with it answer 401. -/
theorem logout_invalidates_token_permanently_witness :
    resolveSession (⟨st0.store, ⟨[], 11⟩⟩ : AppState).sessions 10 = none ∧
    status ⟨st0.store, ⟨[], 11⟩⟩ (some 10) =
      (Outcome.resp authRequiredResp, ⟨st0.store, ⟨[], 11⟩⟩) ∧
    register ⟨st0.store, ⟨[], 11⟩⟩ (some 10) none =
      (Outcome.resp authRequiredResp, ⟨st0.store, ⟨[], 11⟩⟩) :=
  have w := logout_invalidates_token_permanently st0 ⟨st0.store, ⟨[], 11⟩⟩
    10 rfl
  ⟨w.1, w.2.1, w.2.2.1 none⟩

/-- A concrete user whose username has an uppercase letter. -/
def bobUser : User :=
  ⟨2, "Bob", "bob@example.com", generate_password_hash "bobpw",
    UserRole.user⟩

/-- Concrete state: admin (token 10) plus the mixed-case user Bob. -/
def st2 : AppState :=
  ⟨⟨[adminUser, bobUser], 3⟩, ⟨[⟨10, 1, true⟩], 11⟩⟩

/-- C9: the duplicate checks compare usernames and emails by exact string
equality. If no stored user has exactly the requested username or email,
registration succeeds even when a stored username differs from the
requested one only in letter case — afterwards both case-variant accounts
exist in the table. -/
theorem register_uniqueness_case_sensitive
    (st : AppState) (tok : Option Nat) (cu : User)
    (uname pw email : String)
    (hcu : currentUser st tok = some cu)
    (hadmin : cu.role = UserRole.admin)
    (hcase : ∃ w ∈ st.store.users,
      pyLower w.username = pyLower uname ∧ w.username ≠ uname)
    (hnu : ∀ w ∈ st.store.users, w.username ≠ uname)
    (hne : ∀ w ∈ st.store.users, w.email ≠ email) :
    register st tok (some ⟨some uname, some email, some pw, none, none⟩) =
      (Outcome.resp registeredResp,
        ⟨⟨st.store.users ++ [⟨st.store.nextId, uname, email,
            generate_password_hash pw, UserRole.user⟩],
          st.store.nextId + 1⟩, st.sessions⟩) ∧
    (∃ w1 ∈ st.store.users ++ [⟨st.store.nextId, uname, email,
        generate_password_hash pw, UserRole.user⟩],
      ∃ w2 ∈ st.store.users ++ [⟨st.store.nextId, uname, email,
        generate_password_hash pw, UserRole.user⟩],
      pyLower w1.username = pyLower w2.username ∧
        w1.username ≠ w2.username) := by
  have hnu' : findByUsername st.store uname = none := by
    unfold findByUsername
    rw [List.find?_eq_none]
    intro x hx
    simp only [beq_iff_eq]
    exact hnu x hx
  have hne' : findByEmail st.store email = none := by
    unfold findByEmail
    rw [List.find?_eq_none]
    intro x hx
    simp only [beq_iff_eq]
    exact hne x hx
  refine ⟨register_success_eq st tok cu uname pw email none none
    UserRole.user hcu hadmin hnu' hne' rfl, ?_⟩
  obtain ⟨w, hwmem, hwlow, hwne⟩ := hcase
  refine ⟨w, List.mem_append_left _ hwmem,
    ⟨st.store.nextId, uname, email, generate_password_hash pw,
      UserRole.user⟩,
    List.mem_append_right _ (List.mem_singleton.mpr rfl), hwlow, hwne⟩

/-- Closed instance of C9: in st2, where Bob exists, the admin registers
bob (lowercase) successfully; afterwards both Bob and bob are stored. -/
theorem register_uniqueness_case_sensitive_witness :
    register st2 (some 10)
      (some ⟨some "bob", some "b2@example.com", some "pw", none, none⟩) =
      (Outcome.resp registeredResp,
        ⟨⟨st2.store.users ++ [⟨st2.store.nextId, "bob", "b2@example.com",
            generate_password_hash "pw", UserRole.user⟩],
          st2.store.nextId + 1⟩, st2.sessions⟩) ∧
    (∃ w1 ∈ st2.store.users ++ [⟨st2.store.nextId, "bob", "b2@example.com",
        generate_password_hash "pw", UserRole.user⟩],
      ∃ w2 ∈ st2.store.users ++ [⟨st2.store.nextId, "bob", "b2@example.com",
        generate_password_hash "pw", UserRole.user⟩],
      pyLower w1.username = pyLower w2.username ∧
        w1.username ≠ w2.username) :=
  register_uniqueness_case_sensitive st2 (some 10) adminUser "bob" "pw"
    "b2@example.com" rfl rfl (by decide) (by decide) (by decide)

/-- Helper: appending a row to the user table does not change how an
already-resolving session token resolves: the session bindings are
untouched and the id lookup still finds the earlier row first. -/
theorem currentUser_insert (st : AppState) (tok : Option Nat)
    (cu nu : User) (h : currentUser st tok = some cu) :
    currentUser
      ⟨⟨st.store.users ++ [nu], st.store.nextId + 1⟩, st.sessions⟩ tok =
      some cu := by
  cases tok with
  | none => simp [currentUser] at h
  | some t =>
    simp only [currentUser] at h
    show (match resolveSession st.sessions t with
      | none => none
      | some s =>
        findById ⟨st.store.users ++ [nu], st.store.nextId + 1⟩ s.user_id) =
      some cu
    cases hr : resolveSession st.sessions t with
    | none =>
      rw [hr] at h
      simp at h
    | some s =>
      rw [hr] at h
      simp only [] at h
      show findById ⟨st.store.users ++ [nu], st.store.nextId + 1⟩
        s.user_id = some cu
      unfold findById at h ⊢
      rw [List.find?_append, h]
      rfl

/-- C10: a register call that returns the 201 success adds exactly one new
row to the user table, leaves the session store untouched (so no session is
created for the new user), and the acting session still resolves to the
same admin user as before. -/
theorem register_success_frame (st : AppState) (tok : Option Nat)
    (data : Option RequestData) (st' : AppState)
    (h : register st tok data = (Outcome.resp registeredResp, st')) :
    st'.sessions = st.sessions ∧
    (∃ nu, st'.store.users = st.store.users ++ [nu]) ∧
    (∃ cu, currentUser st tok = some cu ∧
      currentUser st' tok = some cu) := by
  unfold register at h
  split at h
  · simp [authRequiredResp, registeredResp] at h
  · rename_i cu hcu
    split at h
    · simp [permissionDeniedResp, registeredResp] at h
    · split at h
      · simp [missingRegisterFieldsResp, registeredResp] at h
      · split at h
        · split at h
          · simp [duplicateUsernameResp, registeredResp] at h
          · split at h
            · simp [duplicateEmailResp, registeredResp] at h
            · split at h
              · simp at h
              · simp at h
                subst h
                exact ⟨rfl, ⟨_, rfl⟩, cu, hcu, currentUser_insert st tok
                  cu _ hcu⟩
        · simp [missingRegisterFieldsResp, registeredResp] at h

/-- Closed instance of C10: in st0, the admin (token 10) registers alice;
the sessions are unchanged, exactly alice's row is appended, and token 10
still resolves to the admin. -/
theorem register_success_frame_witness :
    (register st0 (some 10)
      (some ⟨some "alice", some "a@x.com", some "pw", none,
        none⟩)).2.sessions = st0.sessions ∧
    (∃ nu, (register st0 (some 10)
      (some ⟨some "alice", some "a@x.com", some "pw", none,
        none⟩)).2.store.users = st0.store.users ++ [nu]) ∧
    (∃ cu, currentUser st0 (some 10) = some cu ∧
      currentUser (register st0 (some 10)
        (some ⟨some "alice", some "a@x.com", some "pw", none,
          none⟩)).2 (some 10) = some cu) :=
  register_success_frame st0 (some 10)
    (some ⟨some "alice", some "a@x.com", some "pw", none, none⟩)
    (register st0 (some 10)
      (some ⟨some "alice", some "a@x.com", some "pw", none, none⟩)).2
    rfl

/-- C8 counterexample: under the racy interleaving where both register
calls run their duplicate lookups before either insert, the first call
succeeds but the second ends in the store-level IntegrityError fault (an
unhandled exception the framework surfaces as a 500), not in the 409
duplicate-username response: the application-level uniqueness check is a
read-then-write sequence, with the column constraint only as a backstop. -/
theorem concurrent_register_racy_loser_faults :
    (runSched racySched store8 procA procB).2.1.out =
      some (Outcome.resp registeredResp) ∧
    (runSched racySched store8 procA procB).2.2.out =
      some (Outcome.fault "IntegrityError: UNIQUE constraint failed") ∧
    (runSched racySched store8 procA procB).2.2.out ≠
      some (Outcome.resp duplicateUsernameResp) :=
  ⟨rfl, rfl, by decide⟩

/-- C8 amended: over every interleaving of the two same-username register
calls at store-operation granularity, the UNIQUE column constraint leaves
exactly one stored row with that username and exactly one of the two
calls succeeds; the loser ends either with the 409 duplicate-username
response (serial interleavings) or with the unhandled IntegrityError
fault (racy interleavings) — never with a second success or second row. -/
theorem concurrent_register_exactly_one_success :
    ∀ sched ∈ validScheds,
      ((runSched sched store8 procA procB).1.users.filter
          (fun u => u.username == "bob")).length = 1 ∧
      ((runSched sched store8 procA procB).2.1.out =
          some (Outcome.resp registeredResp) ↔
        ¬ (runSched sched store8 procA procB).2.2.out =
          some (Outcome.resp registeredResp)) ∧
      ((runSched sched store8 procA procB).2.1.out =
          some (Outcome.resp registeredResp) ∨
        (runSched sched store8 procA procB).2.1.out =
          some (Outcome.resp duplicateUsernameResp) ∨
        (runSched sched store8 procA procB).2.1.out =
          some (Outcome.fault "IntegrityError: UNIQUE constraint failed")) ∧
      ((runSched sched store8 procA procB).2.2.out =
          some (Outcome.resp registeredResp) ∨
        (runSched sched store8 procA procB).2.2.out =
          some (Outcome.resp duplicateUsernameResp) ∨
        (runSched sched store8 procA procB).2.2.out =
          some (Outcome.fault "IntegrityError: UNIQUE constraint failed")) := by
  decide

/-- Closed instance of the amended C8 at the racy schedule. -/
theorem concurrent_register_exactly_one_success_witness :
    ((runSched racySched store8 procA procB).1.users.filter
        (fun u => u.username == "bob")).length = 1 ∧
    ((runSched racySched store8 procA procB).2.1.out =
        some (Outcome.resp registeredResp) ↔
      ¬ (runSched racySched store8 procA procB).2.2.out =
        some (Outcome.resp registeredResp)) ∧
    ((runSched racySched store8 procA procB).2.1.out =
        some (Outcome.resp registeredResp) ∨
      (runSched racySched store8 procA procB).2.1.out =
        some (Outcome.resp duplicateUsernameResp) ∨
      (runSched racySched store8 procA procB).2.1.out =
        some (Outcome.fault "IntegrityError: UNIQUE constraint failed")) ∧
    ((runSched racySched store8 procA procB).2.2.out =
        some (Outcome.resp registeredResp) ∨
      (runSched racySched store8 procA procB).2.2.out =
        some (Outcome.resp duplicateUsernameResp) ∨
      (runSched racySched store8 procA procB).2.2.out =
        some (Outcome.fault "IntegrityError: UNIQUE constraint failed")) :=
  concurrent_register_exactly_one_success racySched (by decide)

end AuthService
